import Mathlib

/-!
Shallow embedding of `tools/generate_emergency_dispatch_report.py`.

The script renders diagrams and two mathematical formulas to image files and
assembles them, together with a long fixed text, into one Word document.
External libraries (matplotlib, PIL, python-docx) are modelled as black boxes
whose only observable behaviours are: they may raise an exception, and they
produce file contents.  An `Env` records, for each library call the script's
control flow can observe, whether that call raises (and with which message),
plus the nondeterministic data the libraries supply (pixel content, today's
date).  A `World` records the filesystem (an association list of writes,
newest first) and the lines printed to stdout.  Functions that can let an
exception escape return `Except String`; functions that catch everything are
total.
-/

set_option autoImplicit false

namespace EDReport

/-- Font handle obtained from PIL: either `ImageFont.truetype("arial.ttf", n)`
or `ImageFont.load_default()`. -/
inductive Font where
  | arial (size : Nat)
  | dflt
deriving DecidableEq, Repr

/-- Abstract content of an image file written by the script.  `rendered` is a
successful matplotlib mathtext render, `placeholder` is the PIL fallback image
drawn by `render_formula`, `drawing` is the output of one of the nine diagram
routines.  `pixels` stands for the (nondeterministic) raster data supplied by
the drawing library. -/
inductive ImageContent where
  | rendered (latex : String) (fontsize dpi : Nat) (pixels : Nat)
  | placeholder (w h : Nat) (bg : String) (text : String) (textColor : String) (font : Font)
  | drawing (name : String) (font : Option Font) (pixels : Nat)
deriving DecidableEq, Repr

/-- Content of a file on disk: an image, or the saved Word document.  Document
items are defined below. -/
inductive DocItem where
  | heading (text : String) (level : Nat)
  | paragraph (text : String)
  | styledParagraph (text : String) (style : String)
  | pageBreak
  | picture (path : String) (widthInches : Nat)
deriving DecidableEq, Repr

inductive FileData where
  | image (c : ImageContent)
  | docx (items : List DocItem)
deriving DecidableEq, Repr

/-- The filesystem and stdout.  `fs` lists writes newest first; a later write
to the same path shadows an earlier one, as `List.lookup` finds the first
entry. -/
structure World where
  fs : List (String × FileData)
  out : List String
deriving DecidableEq, Repr

def World.write (w : World) (p : String) (d : FileData) : World :=
  { w with fs := (p, d) :: w.fs }

def World.print (w : World) (s : String) : World :=
  { w with out := w.out ++ [s] }

/-- Oracle for the behaviour of the external libraries during one run.
`renderErr latex` is the exception message raised inside the `try` block of
`render_formula` for that expression (`none` = rendering succeeds);
`truetypeOk` tells whether `ImageFont.truetype("arial.ttf", ...)` succeeds;
`drawErr fname` is the exception raised by the library calls inside the
diagram routine asked to produce `fname`; `insertErr path` tells whether
`doc.add_picture path` raises; `today` is `datetime.date.today().isoformat()`;
`pixels path` abstracts the raster data the library writes to `path`. -/
structure Env where
  renderErr : String → Option String
  truetypeOk : Bool
  drawErr : String → Option String
  insertErr : String → Bool
  today : String
  pixels : String → Nat

def OUT_DOCX : String := "Mixed_Integer_Emergency_Dispatch_Report.docx"

def IMG_DIR : String := "report_images"

/-- `os.path.join` for the relative filenames the script uses. -/
def joinPath (d f : String) : String := d ++ "/" ++ f

/-- Embedding of `render_formula(latex, fname, fontsize, dpi)`.  The `try`
block renders the expression and saves it to `path`; on any exception the
`except` block prints a warning and saves a 900×140 white placeholder image
with black text, guarding the font load with its own `try`.  The function is
total: no exception escapes it.  It returns `path` in both branches. -/
def render_formula (env : Env) (w : World) (latex fname : String)
    (fontsize dpi : Nat) : String × World :=
  let path := joinPath IMG_DIR fname
  match env.renderErr latex with
  | none =>
      (path, w.write path (.image (.rendered latex fontsize dpi (env.pixels path))))
  | some e =>
      let w := w.print ("[WARN] render_formula failed for \x27" ++ latex ++ "\x27: " ++ e)
      let font := if env.truetypeOk then Font.arial 14 else Font.dflt
      let img := ImageContent.placeholder 900 140 "white"
        "Formula render failed; see CI logs" "black" font
      (path, w.write path (.image img))

/-- Success path of `draw_system_architecture`: pick the font (guarded
`truetype` with `load_default` fallback), draw, and save to
`IMG_DIR/fname`. -/
def draw_system_architecture_core (env : Env) (w : World) (fname : String) :
    String × World :=
  let fnt := if env.truetypeOk then Font.arial 14 else Font.dflt
  let path := joinPath IMG_DIR fname
  (path, w.write path (.image (.drawing "system_architecture" (some fnt) (env.pixels path))))

/-- Embedding of `draw_system_architecture(fname)`.  The PIL drawing calls are
not wrapped in any `try` inside the function, so a library exception escapes
to the caller; only the font load is guarded. -/
def draw_system_architecture (env : Env) (w : World) (fname : String) :
    Except String (String × World) :=
  match env.drawErr fname with
  | some e => .error e
  | none => .ok (draw_system_architecture_core env w fname)

def draw_call_flow_core (env : Env) (w : World) (fname : String) : String × World :=
  let path := joinPath IMG_DIR fname
  (path, w.write path (.image (.drawing "call_flow" none (env.pixels path))))

/-- Embedding of `draw_call_flow(fname)`: matplotlib drawing with no exception
handling inside the function. -/
def draw_call_flow (env : Env) (w : World) (fname : String) :
    Except String (String × World) :=
  match env.drawErr fname with
  | some e => .error e
  | none => .ok (draw_call_flow_core env w fname)

def draw_task_allocation_core (env : Env) (w : World) (fname : String) : String × World :=
  let path := joinPath IMG_DIR fname
  (path, w.write path (.image (.drawing "task_allocation" none (env.pixels path))))

/-- Embedding of `draw_task_allocation(fname)`: networkx/matplotlib drawing
with no exception handling inside the function. -/
def draw_task_allocation (env : Env) (w : World) (fname : String) :
    Except String (String × World) :=
  match env.drawErr fname with
  | some e => .error e
  | none => .ok (draw_task_allocation_core env w fname)

def draw_gis_heatmap_core (env : Env) (w : World) (fname : String) : String × World :=
  let path := joinPath IMG_DIR fname
  (path, w.write path (.image (.drawing "gis_heatmap" none (env.pixels path))))

/-- Embedding of `draw_gis_heatmap(fname)`. -/
def draw_gis_heatmap (env : Env) (w : World) (fname : String) :
    Except String (String × World) :=
  match env.drawErr fname with
  | some e => .error e
  | none => .ok (draw_gis_heatmap_core env w fname)

def draw_routing_sequence_core (env : Env) (w : World) (fname : String) : String × World :=
  let path := joinPath IMG_DIR fname
  (path, w.write path (.image (.drawing "routing_sequence" none (env.pixels path))))

/-- Embedding of `draw_routing_sequence(fname)`. -/
def draw_routing_sequence (env : Env) (w : World) (fname : String) :
    Except String (String × World) :=
  match env.drawErr fname with
  | some e => .error e
  | none => .ok (draw_routing_sequence_core env w fname)

def draw_gantt_core (env : Env) (w : World) (fname : String) : String × World :=
  let path := joinPath IMG_DIR fname
  (path, w.write path (.image (.drawing "gantt" none (env.pixels path))))

/-- Embedding of `draw_gantt(fname)`. -/
def draw_gantt (env : Env) (w : World) (fname : String) :
    Except String (String × World) :=
  match env.drawErr fname with
  | some e => .error e
  | none => .ok (draw_gantt_core env w fname)

def draw_deployment_topology_core (env : Env) (w : World) (fname : String) : String × World :=
  let fnt := if env.truetypeOk then Font.arial 14 else Font.dflt
  let path := joinPath IMG_DIR fname
  (path, w.write path (.image (.drawing "deployment_topology" (some fnt) (env.pixels path))))

/-- Embedding of `draw_deployment_topology(fname)`: like
`draw_system_architecture`, only the font load is guarded. -/
def draw_deployment_topology (env : Env) (w : World) (fname : String) :
    Except String (String × World) :=
  match env.drawErr fname with
  | some e => .error e
  | none => .ok (draw_deployment_topology_core env w fname)

def draw_hotspot_analysis_core (env : Env) (w : World) (fname : String) : String × World :=
  let path := joinPath IMG_DIR fname
  (path, w.write path (.image (.drawing "hotspot_analysis" none (env.pixels path))))

/-- Embedding of `draw_hotspot_analysis(fname)`. -/
def draw_hotspot_analysis (env : Env) (w : World) (fname : String) :
    Except String (String × World) :=
  match env.drawErr fname with
  | some e => .error e
  | none => .ok (draw_hotspot_analysis_core env w fname)

def draw_use_case_core (env : Env) (w : World) (fname : String) : String × World :=
  let path := joinPath IMG_DIR fname
  (path, w.write path (.image (.drawing "use_case" none (env.pixels path))))

/-- Embedding of `draw_use_case(fname)`. -/
def draw_use_case (env : Env) (w : World) (fname : String) :
    Except String (String × World) :=
  match env.drawErr fname with
  | some e => .error e
  | none => .ok (draw_use_case_core env w fname)

/-- Embedding of `generate_long_content()`: a fixed list of text parts joined
with blank lines, padded with a repeated closing note if the joined text is
shorter than 4800 characters (Python `len` counts code points, as
`String.length` does). -/
def generate_long_content : String :=
  let parts : List String := [
    "1 引言\n",
    "急救呼叫受理与调度系统是城市医疗应急体系的核心组成部分，其目标在于在最短时间内完成从呼叫接入、病情解析、地址定位到任务分配与路线下发的端到端链路，以确保生命救治的时效性与医疗资源的最优利用。近年来，随着移动通信、云计算与地理信息系统（GIS）的发展，城市急救指挥平台正在从人工驱动向智能化、自动化演进，系统不仅需要高并发的呼叫处理能力，还需要集成语音识别、自然语言处理、实时路况、车辆定位与优化决策模块，从而在复杂场景下维持高可用与低延迟。",
    "\n2 系统目标与总体要求\n",
    "整体目标为打造一套可扩展、容错、满足城市级服务能力的数字化急救指挥平台，其核心性能指标包括：呼叫受理到任务分配端到端延迟不超过 3 秒（目标值），在试点城市情景下实现平均响应时间由基线的 12 分钟优化至 8 分钟附近（受路况与资源约束影响），调度首次可执行成功率不低于 98%，并在高峰或突发灾害下提供可视化支撑与人工干预通道。",
    "\n3 关键功能需求\n",
    "（1）呼叫受理与自动解析：系统应支持 PSTN、SIP/VoIP 与移动 App 的接入，对来电语音进行实时转写（ASR），并通过自然语言处理模块抽取结构化信息，包括但不限于：事件地点、症状关键词、人数、是否有生命体征提示词（如心脏骤停、无意识、呼吸停止）等。地址解析需结合地理编码与 POI 数据进行模糊匹配，支持楼宇门牌、单元与坐标级定位，并将不确定的位置通过界面或回拨确认。",
    "（2）事件优先级与分级：基于病情关键词、年龄、呼叫者提供的状况信息以及历史病史（如有）自动判定优先级，并支持规则引擎对特殊场景（传染病、群体伤害等）进行分级与加权处理。",
    "（3）任务分配与调度：系统应实时监控车辆与医护人员的状态（位置、装备、当前任务、可用床位对接信息），将候选车辆按照可达时间、车辆能力、当前负载与医院接收能力进行综合评分，并利用自动化调度引擎（可采用混合整数规划 MIP 与强化学习 RL 混合策略）在可接受延迟内给出分配方案。调度模块需支持自动下发与手动干预两种模式，并记录决策日志用于事后审计。",
    "（4）实时路径规划与重规划：接入实时交通 API（含路况、事故、临时管制信息），在任务下发后计算 ETA 最优路径。在执行过程中若发生交通突发事件或临时管制，系统应能在数秒内完成重规划并下发替代路径，保证车辆尽可能按最优预期到达。",
    "（5）GIS 可视化与监控：地图界面应能实时展现车辆、医护人员与关键设备的地理位置，支持图层控制（任务状态、资源类型、热力图）与多级缩放，便于指挥人员快速判断资源分布与制定策略。",
    "（6）历史分析、回放与报表：系统需保存任务与轨迹日志，支持按时间/区域/事件类型的钻取性分析。自动化报表包含资源使用率、响应时间分布、SLA 遵从情况与热点时空图。历史轨迹回放功能用于事后责任认定、绩效评估与运营优化。",
    "（7）系统管理与安全：支持角色与权限管理、规则引擎配置、报警策略与审计日志。关键数据需加密存储与传输，并满足本地法规对医疗数据的合规性要求（如数据脱敏、最小权限、访问审计等）。",
    "\n4 非功能性需求与性能指标\n",
    "系统应采用分布式微服务架构以支撑城市级别并发，地图与位置服务的更新延迟控制在 2 秒以内。任务分配模块在高峰期仍需保证 3 秒内完成一次自动化调度（包括候选筛选、评分与下发），系统可用性目标为 99.9%，并应设计包括灾备、跨可用区多活与在线升级机制在内的高可用方案。",
    "\n5 数据接口与集成需求\n",
    "系统需与以下外部系统或服务集成：电话交换（或云呼叫服务）、第三方 ASR 与 NLP 服务（或内置模型）、地图与交通数据 API、医院信息系统（HIS）以获取床位/接收能力、移动端 SDK（车辆端）与告警/通知平台。每个接口须定义超时、重试与降级策略，保证在第三方降级情况下系统仍能以最小能力维持核心业务。",
    "\n6 异常场景、容错与安全策略\n",
    "定位失败时，系统应回退到来电归属地、请求回拨或调度员确认流程；当无可用资源时，系统触发逐级报警并尝试跨区调用、外包或医院协调方案。通道中断场景需保证消息持久化（消息队列或数据库持久层）并自动重试。在安全层面，所有敏感数据进行传输层加密（TLS）与存储加密，并启用访问控制、角色审计与最小权限策略，以符合法规要求。",
    "\n7 验收标准与测试计划\n",
    "功能验收包括端到端流程测试、地址解析准确率测试（目标 ≥ 95%）、优先级判定精度与调度成功率验证。性能测试需覆盖峰值并发、地图刷新、路径计算与历史回放场景。安全测试涵盖渗透测试、数据泄露风险评估与合规审查。",
    "\n8 运维与部署建议\n",
    "建议采用容器化部署（Kubernetes），使用服务网格（如 Istio）实现流量管理与故障隔离；数据库采用主从或主主复制，任务队列使用可靠的消息中间件（如 Kafka / RabbitMQ）。监控使用 Prometheus/Grafana，日志统一采集（ELK 或 OpenSearch）。此外，常态化演练（断连、灾备切换）与定期备份恢复演练是保障系统连续性的关键。",
    "\n9 研究与扩展方向\n",
    "未来可将 MIP 优化与强化学习相结合形成混合调度器：在常规场景使用 MIP 保证可行性与约束满足，在动态高维场景使用 RL 快速产生高质量动作候选，并通过在线学习与离线仿真不断提升策略。另可引入图神经网络（GNN）对路网与车辆状态进行表征以改善状态压缩与泛化能力。",
    "\n10 小结\n",
    "本文对城市级急救指挥平台的需求分析进行了系统化扩展，明确了功能与非功能需求、数据接口、异常处理、验收测试与部署建议。系统的核心在于将呼叫受理的快速解析与基于实时态势的自动调度结合，通过可视化与历史分析不断优化资源布局，从而在常态与突发时维持高效的救治能力。"]
  let long_text := String.intercalate "\n\n" parts
  if long_text.length < 4800 then
    long_text ++ "\n\n" ++
      String.join (List.replicate 10
        "补充说明：本章节为需求分析扩展，包含技术细节与部署方案，可作为论文中“需求分析”或“系统设计前置研究”部分的主要内容。")
  else
    long_text

/-- First formula string of `create_report` (raw Python string `latex1`);
literal braces are written with their escape codes. -/
def latex1 : String :=
  "\\min \\sum_\x7bv\\in V\x7d\\sum_\x7b(i,j)\\in A\x7d c_\x7bij\x7d x_\x7bv,ij\x7d + \\beta \\sum_\x7br\\in R\x7d\\sum_\x7bh\\in H_r\x7d P_\x7br,h\x7d y_\x7br,h\x7d"

/-- Second formula string of `create_report` (raw Python string `latex2`). -/
def latex2 : String :=
  "u_\x7bv,j\x7d \\geq u_\x7bv,i\x7d + s_i + t_\x7bij\x7d - M(1-x_\x7bv,ij\x7d)"

/-- Embedding of lines 387-396 of `create_report`: the `imgs` list is built by
calling each diagram routine in order; any exception escaping a routine
escapes the whole assembly, since these calls are outside every
`try` block. -/
def build_imgs (env : Env) (w : World) :
    Except String (List (String × String) × World) := do
  let (p1, w) ← draw_system_architecture env w "fig1_system_architecture.png"
  let (p2, w) ← draw_call_flow env w "fig2_call_flow.png"
  let (p3, w) ← draw_task_allocation env w "fig3_task_allocation.png"
  let (p4, w) ← draw_gis_heatmap env w "fig4_gis_heatmap.png"
  let (p5, w) ← draw_routing_sequence env w "fig5_routing_sequence.png"
  let (p6, w) ← draw_gantt env w "fig6_gantt.png"
  let (p7, w) ← draw_hotspot_analysis env w "fig7_hotspot.png"
  let (p8, w) ← draw_deployment_topology env w "fig8_deployment.png"
  let (p9, w) ← draw_use_case env w "fig9_use_case.png"
  return ([("图1 系统总体架构图 / System Architecture Diagram", p1),
           ("图2 呼叫受理与事件生成流程图 / Call Intake and Event Generation Flowchart", p2),
           ("图3 任务分配决策流程图 / Task Allocation Decision Flowchart", p3),
           ("图4 GIS 资源热力图示意 / GIS Resource Heatmap", p4),
           ("图5 实时路径规划与重规划示意 / Real-time Routing & Re-routing", p5),
           ("图6 车辆调度甘特图示例 / Vehicle Dispatch Gantt Chart Example", p6),
           ("图7 历史热点时空分析 / Historical Hotspot Analysis", p7),
           ("图8 部署与高可用拓扑图 / Deployment Topology and High-Availability", p8),
           ("图9 用例图（简化） / Use Case Diagram (Simplified)", p9)], w)

/-- Embedding of the loop body at lines 398-404 of `create_report`: add the
heading (the caption up to the first " / "), then try `add_picture`; on
failure add the placeholder paragraph instead; then add the caption paragraph
unconditionally. -/
def addFigure (env : Env) (doc : List DocItem) (cp : String × String) : List DocItem :=
  let doc := doc ++ [DocItem.heading ((cp.1.splitOn " / ").headD cp.1) 3]
  let doc :=
    if env.insertErr cp.2 then doc ++ [DocItem.paragraph ("[无法插入图片：" ++ cp.2 ++ "]")]
    else doc ++ [DocItem.picture cp.2 6]
  doc ++ [DocItem.styledParagraph cp.1 "Intense Quote"]

/-- Items appended by lines 373-385 of `create_report`, before any image
work: title heading, author/date paragraph, the requirements heading, the
text paragraphs of `generate_long_content` split on blank lines, a page
break, and the figures heading. -/
def doc_head (env : Env) : List DocItem :=
  let doc : List DocItem := []
  let doc := doc ++ [DocItem.heading "城市级急救指挥平台：需求分析与系统设计" 0]
  let doc := doc ++ [DocItem.paragraph ("作者：系统设计组    日期：" ++ env.today)]
  let doc := doc ++ [DocItem.heading "需求分析（扩展）" 1]
  let long_text := generate_long_content
  let doc := doc ++ (long_text.splitOn "\n\n").map DocItem.paragraph
  let doc := doc ++ [DocItem.pageBreak]
  doc ++ [DocItem.heading "图示与说明" 1]

/-- Lines 398-419 of `create_report`: the figure loop, the two formula
renders and picture insertions, `doc.save`, and the two prints.  The two
`doc.add_picture` calls for the formula images (lines 409 and 414) are
outside every `try`, so a failure there escapes as an exception. -/
def report_tail (env : Env) (doc : List DocItem) (imgs : List (String × String))
    (w : World) : Except String World :=
  let doc := imgs.foldl (addFigure env) doc
  let r1 := render_formula env w latex1 "formula_obj.png" 18 200
  let w := r1.2
  if env.insertErr r1.1 then .error "add_picture raised" else
  let doc := doc ++ [DocItem.picture r1.1 6]
  let doc := doc ++ [DocItem.styledParagraph "式 1：调度目标函数示例（行驶成本 + 医院偏好惩罚）" "Intense Quote"]
  let r2 := render_formula env w latex2 "formula_time.png" 18 200
  let w := r2.2
  if env.insertErr r2.1 then .error "add_picture raised" else
  let doc := doc ++ [DocItem.picture r2.1 6]
  let doc := doc ++ [DocItem.styledParagraph "式 2：时间窗与 Big-M 线性化约束示例" "Intense Quote"]
  let w := w.write OUT_DOCX (FileData.docx doc)
  let w := w.print ("已生成 Word 报告： " ++ OUT_DOCX)
  let w := w.print ("图像文件位于： " ++ IMG_DIR)
  .ok w

/-- Embedding of `create_report()`.  Document items are accumulated in the
order python-docx appends them; `doc.save(OUT_DOCX)` becomes a filesystem
write of the item list.  An exception from a diagram routine in `build_imgs`
escapes the whole function. -/
def create_report (env : Env) (w : World) : Except String World :=
  match build_imgs env w with
  | .error e => .error e
  | .ok (imgs, w) => report_tail env (doc_head env) imgs w

/-- The saved report, read back from the filesystem. -/
def reportDoc (w : World) : Option (List DocItem) :=
  match w.fs.lookup OUT_DOCX with
  | some (FileData.docx d) => some d
  | _ => none

/-- Structural skeleton of a document item: text of free paragraphs is
dropped (it contains the run-dependent date), everything else is kept. -/
inductive DocKind where
  | heading (text : String) (level : Nat)
  | paragraph
  | styledParagraph (style : String)
  | pageBreak
  | picture (path : String) (widthInches : Nat)
deriving DecidableEq, Repr

def DocItem.kind : DocItem → DocKind
  | DocItem.heading t l => DocKind.heading t l
  | DocItem.paragraph _ => DocKind.paragraph
  | DocItem.styledParagraph _ s => DocKind.styledParagraph s
  | DocItem.pageBreak => DocKind.pageBreak
  | DocItem.picture p wi => DocKind.picture p wi

/-- Section structure of a document: every item mapped to its kind. -/
def docStructure (d : List DocItem) : List DocKind := d.map DocItem.kind

/-- All headings of a document, with their levels, in order. -/
def docHeadings (d : List DocItem) : List (String × Nat) :=
  d.filterMap fun i =>
    match i with
    | DocItem.heading t l => some (t, l)
    | _ => none

/-- The fixed (caption, filename) list of the nine diagram sections, in the
order `create_report` builds `imgs`. -/
def figList : List (String × String) := [
  ("图1 系统总体架构图 / System Architecture Diagram", "fig1_system_architecture.png"),
  ("图2 呼叫受理与事件生成流程图 / Call Intake and Event Generation Flowchart", "fig2_call_flow.png"),
  ("图3 任务分配决策流程图 / Task Allocation Decision Flowchart", "fig3_task_allocation.png"),
  ("图4 GIS 资源热力图示意 / GIS Resource Heatmap", "fig4_gis_heatmap.png"),
  ("图5 实时路径规划与重规划示意 / Real-time Routing & Re-routing", "fig5_routing_sequence.png"),
  ("图6 车辆调度甘特图示例 / Vehicle Dispatch Gantt Chart Example", "fig6_gantt.png"),
  ("图7 历史热点时空分析 / Historical Hotspot Analysis", "fig7_hotspot.png"),
  ("图8 部署与高可用拓扑图 / Deployment Topology and High-Availability", "fig8_deployment.png"),
  ("图9 用例图（简化） / Use Case Diagram (Simplified)", "fig9_use_case.png")]

/-- The same list with each filename resolved to its path in `IMG_DIR`. -/
def figPairs : List (String × String) :=
  figList.map fun cf => (cf.1, joinPath IMG_DIR cf.2)

/-- A run in which no diagram routine raises and inserting the two formula
images succeeds: exactly the conditions under which `create_report` reaches
`doc.save`. -/
def goodRun (env : Env) : Prop :=
  env.drawErr "fig1_system_architecture.png" = none ∧
  env.drawErr "fig2_call_flow.png" = none ∧
  env.drawErr "fig3_task_allocation.png" = none ∧
  env.drawErr "fig4_gis_heatmap.png" = none ∧
  env.drawErr "fig5_routing_sequence.png" = none ∧
  env.drawErr "fig6_gantt.png" = none ∧
  env.drawErr "fig7_hotspot.png" = none ∧
  env.drawErr "fig8_deployment.png" = none ∧
  env.drawErr "fig9_use_case.png" = none ∧
  env.insertErr (joinPath IMG_DIR "formula_obj.png") = false ∧
  env.insertErr (joinPath IMG_DIR "formula_time.png") = false

/-- The three document items contributed by one iteration of the figure
loop: the level-3 heading, then the picture or — if `add_picture` raises —
the placeholder paragraph, then the caption paragraph. -/
def figSection (env : Env) (cp : String × String) : List DocItem :=
  [DocItem.heading ((cp.1.splitOn " / ").headD cp.1) 3] ++
  (if env.insertErr cp.2 then [DocItem.paragraph ("[无法插入图片：" ++ cp.2 ++ "]")]
   else [DocItem.picture cp.2 6]) ++
  [DocItem.styledParagraph cp.1 "Intense Quote"]

theorem addFigure_eq (env : Env) (doc : List DocItem) (cp : String × String) :
    addFigure env doc cp = doc ++ figSection env cp := by
  unfold addFigure figSection
  cases h : env.insertErr cp.2 <;> simp

theorem foldl_addFigure (env : Env) (ps : List (String × String)) (doc : List DocItem) :
    ps.foldl (addFigure env) doc = doc ++ (ps.map (figSection env)).flatten := by
  induction ps generalizing doc with
  | nil => simp
  | cons p ps ih => simp [addFigure_eq, ih]

/-- The four items the formula block appends after the figure sections. -/
def formulaItems : List DocItem :=
  [DocItem.picture (joinPath IMG_DIR "formula_obj.png") 6,
   DocItem.styledParagraph "式 1：调度目标函数示例（行驶成本 + 医院偏好惩罚）" "Intense Quote",
   DocItem.picture (joinPath IMG_DIR "formula_time.png") 6,
   DocItem.styledParagraph "式 2：时间窗与 Big-M 线性化约束示例" "Intense Quote"]

/-- The items of the document `create_report` saves when it completes: title,
author/date paragraph, requirements heading, the text paragraphs, a page
break, the figures heading, the nine figure sections, and the two formula
pictures with their captions. -/
def reportItems (env : Env) : List DocItem :=
  [DocItem.heading "城市级急救指挥平台：需求分析与系统设计" 0,
   DocItem.paragraph ("作者：系统设计组    日期：" ++ env.today),
   DocItem.heading "需求分析（扩展）" 1] ++
  (generate_long_content.splitOn "\n\n").map DocItem.paragraph ++
  [DocItem.pageBreak, DocItem.heading "图示与说明" 1] ++
  (figPairs.map (figSection env)).flatten ++
  formulaItems

/-- The nine image files written while building `imgs`, newest first. -/
def figWrites (env : Env) : List (String × FileData) :=
  [(joinPath IMG_DIR "fig9_use_case.png",
    FileData.image (.drawing "use_case" none (env.pixels (joinPath IMG_DIR "fig9_use_case.png")))),
   (joinPath IMG_DIR "fig8_deployment.png",
    FileData.image (.drawing "deployment_topology"
      (some (if env.truetypeOk then Font.arial 14 else Font.dflt))
      (env.pixels (joinPath IMG_DIR "fig8_deployment.png")))),
   (joinPath IMG_DIR "fig7_hotspot.png",
    FileData.image (.drawing "hotspot_analysis" none (env.pixels (joinPath IMG_DIR "fig7_hotspot.png")))),
   (joinPath IMG_DIR "fig6_gantt.png",
    FileData.image (.drawing "gantt" none (env.pixels (joinPath IMG_DIR "fig6_gantt.png")))),
   (joinPath IMG_DIR "fig5_routing_sequence.png",
    FileData.image (.drawing "routing_sequence" none (env.pixels (joinPath IMG_DIR "fig5_routing_sequence.png")))),
   (joinPath IMG_DIR "fig4_gis_heatmap.png",
    FileData.image (.drawing "gis_heatmap" none (env.pixels (joinPath IMG_DIR "fig4_gis_heatmap.png")))),
   (joinPath IMG_DIR "fig3_task_allocation.png",
    FileData.image (.drawing "task_allocation" none (env.pixels (joinPath IMG_DIR "fig3_task_allocation.png")))),
   (joinPath IMG_DIR "fig2_call_flow.png",
    FileData.image (.drawing "call_flow" none (env.pixels (joinPath IMG_DIR "fig2_call_flow.png")))),
   (joinPath IMG_DIR "fig1_system_architecture.png",
    FileData.image (.drawing "system_architecture"
      (some (if env.truetypeOk then Font.arial 14 else Font.dflt))
      (env.pixels (joinPath IMG_DIR "fig1_system_architecture.png"))))]

/-- The world after the nine diagram routines have run successfully. -/
def w_figs (env : Env) (w : World) : World := { w with fs := figWrites env ++ w.fs }

theorem build_imgs_ok (env : Env) (w : World)
    (h1 : env.drawErr "fig1_system_architecture.png" = none)
    (h2 : env.drawErr "fig2_call_flow.png" = none)
    (h3 : env.drawErr "fig3_task_allocation.png" = none)
    (h4 : env.drawErr "fig4_gis_heatmap.png" = none)
    (h5 : env.drawErr "fig5_routing_sequence.png" = none)
    (h6 : env.drawErr "fig6_gantt.png" = none)
    (h7 : env.drawErr "fig7_hotspot.png" = none)
    (h8 : env.drawErr "fig8_deployment.png" = none)
    (h9 : env.drawErr "fig9_use_case.png" = none) :
    build_imgs env w = .ok (figPairs, w_figs env w) := by
  simp only [build_imgs, draw_system_architecture, draw_call_flow, draw_task_allocation,
    draw_gis_heatmap, draw_routing_sequence, draw_gantt, draw_hotspot_analysis,
    draw_deployment_topology, draw_use_case, h1, h2, h3, h4, h5, h6, h7, h8, h9]
  rfl

/-- The image `render_formula` leaves at its destination path: the rendered
expression on success, the fixed placeholder on failure. -/
def renderResultImg (env : Env) (latex fname : String) : ImageContent :=
  match env.renderErr latex with
  | none => ImageContent.rendered latex 18 200 (env.pixels (joinPath IMG_DIR fname))
  | some _ =>
      ImageContent.placeholder 900 140 "white" "Formula render failed; see CI logs" "black"
        (if env.truetypeOk then Font.arial 14 else Font.dflt)

/-- The single warning line printed when rendering `latex` raises `e`. -/
def warnLine (latex e : String) : String :=
  "[WARN] render_formula failed for \x27" ++ latex ++ "\x27: " ++ e

/-- The console output of one `render_formula` call. -/
def renderWarns (env : Env) (latex : String) : List String :=
  match env.renderErr latex with
  | none => []
  | some e => [warnLine latex e]

theorem render_formula_path (env : Env) (w : World) (latex fname : String)
    (fontsize dpi : Nat) :
    (render_formula env w latex fname fontsize dpi).1 = joinPath IMG_DIR fname := by
  unfold render_formula
  cases env.renderErr latex <;> rfl

theorem render_formula_world (env : Env) (w : World) (latex fname : String) :
    (render_formula env w latex fname 18 200).2 =
      { fs := (joinPath IMG_DIR fname, FileData.image (renderResultImg env latex fname)) :: w.fs,
        out := w.out ++ renderWarns env latex } := by
  unfold render_formula renderResultImg renderWarns warnLine
  cases env.renderErr latex <;> simp [World.write, World.print]

/-- The world after both formula images have been rendered on top of `w`. -/
def w_formulas (env : Env) (w : World) : World :=
  (render_formula env
    (render_formula env w latex1 "formula_obj.png" 18 200).2
    latex2 "formula_time.png" 18 200).2

theorem report_tail_ok (env : Env) (doc : List DocItem) (imgs : List (String × String))
    (w : World)
    (hf1 : env.insertErr (joinPath IMG_DIR "formula_obj.png") = false)
    (hf2 : env.insertErr (joinPath IMG_DIR "formula_time.png") = false) :
    report_tail env doc imgs w = .ok
      ((((w_formulas env w).write OUT_DOCX
          (FileData.docx ((doc ++ (imgs.map (figSection env)).flatten) ++ formulaItems))).print
        ("已生成 Word 报告： " ++ OUT_DOCX)).print ("图像文件位于： " ++ IMG_DIR)) := by
  simp only [report_tail, foldl_addFigure, render_formula_path, hf1, hf2,
    Bool.false_eq_true, if_false, w_formulas, formulaItems,
    List.append_assoc, List.cons_append, List.singleton_append, List.nil_append]

/-- The final world of a successful `create_report` run: all eleven image
writes, the saved document, and the two completion lines. -/
def create_report_success (env : Env) (w : World) : World :=
  (((w_formulas env (w_figs env w)).write OUT_DOCX (FileData.docx (reportItems env))).print
    ("已生成 Word 报告： " ++ OUT_DOCX)).print ("图像文件位于： " ++ IMG_DIR)

theorem doc_head_eq (env : Env) :
    doc_head env =
      (((([DocItem.heading "城市级急救指挥平台：需求分析与系统设计" 0] ++
       [DocItem.paragraph ("作者：系统设计组    日期：" ++ env.today)]) ++
       [DocItem.heading "需求分析（扩展）" 1]) ++
      (generate_long_content.splitOn "\n\n").map DocItem.paragraph ++
       [DocItem.pageBreak]) ++ [DocItem.heading "图示与说明" 1]) := by
  unfold doc_head
  rfl

theorem append_regroup {α : Type} (x y z p q : α) (lm f t : List α) :
    [x] ++ [y] ++ [z] ++ lm ++ [p] ++ [q] ++ f ++ t =
      [x, y, z] ++ lm ++ [p, q] ++ f ++ t := by
  simp

theorem doc_head_flatten (env : Env) :
    (doc_head env ++ (figPairs.map (figSection env)).flatten) ++ formulaItems =
      reportItems env := by
  rw [doc_head_eq env]
  unfold reportItems
  exact append_regroup _ _ _ _ _
    ((generate_long_content.splitOn "\n\n").map DocItem.paragraph)
    ((figPairs.map (figSection env)).flatten) formulaItems

theorem create_report_ok (env : Env) (w : World) (h : goodRun env) :
    create_report env w = .ok (create_report_success env w) := by
  obtain ⟨h1, h2, h3, h4, h5, h6, h7, h8, h9, hf1, hf2⟩ := h
  have hb := build_imgs_ok env w h1 h2 h3 h4 h5 h6 h7 h8 h9
  simp only [create_report, hb]
  rw [report_tail_ok env (doc_head env) figPairs (w_figs env w) hf1 hf2]
  rw [doc_head_flatten env]
  rfl

theorem w_formulas_eq (env : Env) (w : World) :
    w_formulas env w =
      { fs := (joinPath IMG_DIR "formula_time.png",
                FileData.image (renderResultImg env latex2 "formula_time.png")) ::
              (joinPath IMG_DIR "formula_obj.png",
                FileData.image (renderResultImg env latex1 "formula_obj.png")) :: w.fs,
        out := w.out ++ renderWarns env latex1 ++ renderWarns env latex2 } := by
  unfold w_formulas
  rw [render_formula_world, render_formula_world]

/-- The filesystem at the end of a successful run, newest write first: the
document, the two formula images, the nine diagram images, then whatever was
there before. -/
theorem success_fs (env : Env) (w : World) :
    (create_report_success env w).fs =
      (OUT_DOCX, FileData.docx (reportItems env)) ::
      (joinPath IMG_DIR "formula_time.png",
        FileData.image (renderResultImg env latex2 "formula_time.png")) ::
      (joinPath IMG_DIR "formula_obj.png",
        FileData.image (renderResultImg env latex1 "formula_obj.png")) ::
      (figWrites env ++ w.fs) := by
  unfold create_report_success
  rw [w_formulas_eq]
  rfl

/-- The console output at the end of a successful run: any render warnings,
then the two completion lines. -/
theorem success_out (env : Env) (w : World) :
    (create_report_success env w).out =
      w.out ++ (renderWarns env latex1 ++ renderWarns env latex2) ++
      ["已生成 Word 报告： " ++ OUT_DOCX, "图像文件位于： " ++ IMG_DIR] := by
  unfold create_report_success
  rw [w_formulas_eq]
  simp [World.write, World.print, w_figs]

theorem reportDoc_success (env : Env) (w : World) :
    reportDoc (create_report_success env w) = some (reportItems env) := by
  unfold reportDoc
  rw [success_fs]
  rfl

theorem docHeadings_append (a b : List DocItem) :
    docHeadings (a ++ b) = docHeadings a ++ docHeadings b := by
  simp [docHeadings]

theorem docHeadings_paragraphs (l : List String) :
    docHeadings (l.map DocItem.paragraph) = [] := by
  simp [docHeadings]

theorem docHeadings_figSection (env : Env) (cp : String × String) :
    docHeadings (figSection env cp) = [(((cp.1.splitOn " / ").headD cp.1), 3)] := by
  unfold figSection docHeadings
  cases env.insertErr cp.2 <;> simp

theorem docHeadings_figSections (env : Env) (ps : List (String × String)) :
    docHeadings ((ps.map (figSection env)).flatten) =
      ps.map fun cp => (((cp.1.splitOn " / ").headD cp.1), 3) := by
  induction ps with
  | nil => rfl
  | cons p ps ih => simp [docHeadings_append, docHeadings_figSection, ih]

/-- All headings of the finished document, in order: the title, the
requirements heading, the figures heading, and one level-3 heading per
figure entry (the caption up to " / "). -/
theorem docHeadings_reportItems (env : Env) :
    docHeadings (reportItems env) =
      [("城市级急救指挥平台：需求分析与系统设计", 0), ("需求分析（扩展）", 1), ("图示与说明", 1)] ++
      figPairs.map (fun cp => (((cp.1.splitOn " / ").headD cp.1), 3)) := by
  unfold reportItems
  simp only [docHeadings_append, docHeadings_paragraphs, docHeadings_figSections]
  rfl

/-- The kinds of the items one figure section contributes, as a function of
the insertion-failure oracle alone. -/
def sectionKinds (ins : String → Bool) (cp : String × String) : List DocKind :=
  [DocKind.heading ((cp.1.splitOn " / ").headD cp.1) 3] ++
  (if ins cp.2 then [DocKind.paragraph] else [DocKind.picture cp.2 6]) ++
  [DocKind.styledParagraph "Intense Quote"]

/-- The structural skeleton of the finished document, as a function of the
insertion-failure oracle alone: everything except free paragraph text is
fixed. -/
def reportStructure (ins : String → Bool) : List DocKind :=
  [DocKind.heading "城市级急救指挥平台：需求分析与系统设计" 0, DocKind.paragraph,
   DocKind.heading "需求分析（扩展）" 1] ++
  (generate_long_content.splitOn "\n\n").map (fun _ => DocKind.paragraph) ++
  [DocKind.pageBreak, DocKind.heading "图示与说明" 1] ++
  (figPairs.map (sectionKinds ins)).flatten ++
  [DocKind.picture (joinPath IMG_DIR "formula_obj.png") 6,
   DocKind.styledParagraph "Intense Quote",
   DocKind.picture (joinPath IMG_DIR "formula_time.png") 6,
   DocKind.styledParagraph "Intense Quote"]

theorem docStructure_append (a b : List DocItem) :
    docStructure (a ++ b) = docStructure a ++ docStructure b := by
  simp [docStructure]

theorem docStructure_paragraphs (l : List String) :
    docStructure (l.map DocItem.paragraph) = l.map fun _ => DocKind.paragraph := by
  unfold docStructure
  rw [List.map_map]
  rfl

theorem docStructure_figSection (env : Env) (cp : String × String) :
    docStructure (figSection env cp) = sectionKinds env.insertErr cp := by
  unfold figSection sectionKinds docStructure
  cases env.insertErr cp.2 <;> simp [DocItem.kind]

theorem docStructure_figSections (env : Env) (ps : List (String × String)) :
    docStructure ((ps.map (figSection env)).flatten) =
      (ps.map (sectionKinds env.insertErr)).flatten := by
  induction ps with
  | nil => rfl
  | cons p ps ih => simp [docStructure_append, docStructure_figSection, ih]

/-- The skeleton of the finished document depends on the run only through
the insertion-failure oracle. -/
theorem docStructure_reportItems (env : Env) :
    docStructure (reportItems env) = reportStructure env.insertErr := by
  unfold reportItems reportStructure
  simp only [docStructure_append, docStructure_paragraphs, docStructure_figSections]
  rfl

theorem mem_figSection_reportItems (env : Env) (cp : String × String)
    (hcp : cp ∈ figPairs) (x : DocItem) (hx : x ∈ figSection env cp) :
    x ∈ reportItems env := by
  have hm : x ∈ (figPairs.map (figSection env)).flatten :=
    List.mem_flatten.mpr ⟨figSection env cp, List.mem_map_of_mem _ hcp, hx⟩
  unfold reportItems
  exact List.mem_append.mpr (Or.inl (List.mem_append.mpr (Or.inr hm)))

/-! Concrete runs used by the witnesses. -/

def w0 : World := { fs := [], out := [] }

/-- A run in which every library call succeeds. -/
def env_ok : Env :=
  { renderErr := fun _ => none, truetypeOk := true, drawErr := fun _ => none,
    insertErr := fun _ => false, today := "2025-10-12", pixels := fun _ => 7 }

theorem goodRun_env_ok : goodRun env_ok :=
  ⟨rfl, rfl, rfl, rfl, rfl, rfl, rfl, rfl, rfl, rfl, rfl⟩

/-- A run in which the third diagram routine raises. -/
def env_gen_raise : Env :=
  { env_ok with
    drawErr := fun f =>
      if f = "fig3_task_allocation.png" then some "RuntimeError: draw failed" else none }

/-- A run in which inserting the first figure image fails (e.g. the file is
corrupt), while everything else succeeds. -/
def env_ins_fig1 : Env :=
  { env_ok with insertErr := fun p => p == joinPath IMG_DIR "fig1_system_architecture.png" }

theorem goodRun_env_ins_fig1 : goodRun env_ins_fig1 :=
  ⟨rfl, rfl, rfl, rfl, rfl, rfl, rfl, rfl, rfl, rfl, rfl⟩

/-- A run in which every insertion fails. -/
def env_ins_all : Env := { env_ok with insertErr := fun _ => true }

/-- A run in which mathtext rendering raises. -/
def env_render_fail : Env := { env_ok with renderErr := fun _ => some "ParseSyntaxError" }

/-- A run in which mathtext rendering raises and `arial.ttf` is missing. -/
def env_render_fail_nofont : Env :=
  { env_ok with renderErr := fun _ => some "IOError", truetypeOk := false }

/-- A second all-good run differing from `env_ok` in date, raster data and
render outcome. -/
def env_ok2 : Env :=
  { env_ok with
    today := "2026-01-01"
    pixels := fun _ => 99
    renderErr := fun _ => some "DVI error" }

theorem goodRun_env_ok2 : goodRun env_ok2 :=
  ⟨rfl, rfl, rfl, rfl, rfl, rfl, rfl, rfl, rfl, rfl, rfl⟩

/-! The claims. -/

/-- C1: for every expression string and destination filename, `render_formula`
completes without raising (it is a total function of the oracle: every
exception of the `try` block is caught and the fallback raises nothing), and
afterwards the destination path holds an image file — the rendered expression
or the placeholder — even when the expression is malformed (any `renderErr`
oracle, hence any expression). -/
theorem claim_C1_renderer_always_leaves_image (env : Env) (w : World)
    (latex fname : String) (fontsize dpi : Nat) :
    ∃ c : ImageContent,
      ((render_formula env w latex fname fontsize dpi).2).fs.lookup (joinPath IMG_DIR fname) =
        some (FileData.image c) := by
  unfold render_formula
  cases env.renderErr latex with
  | none =>
      refine ⟨ImageContent.rendered latex fontsize dpi (env.pixels (joinPath IMG_DIR fname)), ?_⟩
      simp [World.write, List.lookup]
  | some e =>
      refine ⟨ImageContent.placeholder 900 140 "white" "Formula render failed; see CI logs"
        "black" (if env.truetypeOk then Font.arial 14 else Font.dflt), ?_⟩
      simp [World.write, World.print, List.lookup]

/-- C9: `render_formula` returns the join of the image directory and the
requested filename in both the success and the failure branch; its return
value is independent of the rendering outcome. -/
theorem claim_C9_render_returns_path (env : Env) (w : World) (latex fname : String)
    (fontsize dpi : Nat) :
    (render_formula env w latex fname fontsize dpi).1 = joinPath IMG_DIR fname :=
  render_formula_path env w latex fname fontsize dpi

/-- C5: whenever rendering raises, `render_formula` prints exactly one warning
line containing the failing expression and the exception message, and writes
the fixed 900×140 white placeholder image with black text to the same
destination path. -/
theorem claim_C5_failure_logs_and_placeholder (env : Env) (w : World)
    (latex fname : String) (fontsize dpi : Nat) (e : String)
    (h : env.renderErr latex = some e) :
    ((render_formula env w latex fname fontsize dpi).2).out =
      w.out ++ ["[WARN] render_formula failed for \x27" ++ latex ++ "\x27: " ++ e] ∧
    ((render_formula env w latex fname fontsize dpi).2).fs.lookup (joinPath IMG_DIR fname) =
      some (FileData.image (ImageContent.placeholder 900 140 "white"
        "Formula render failed; see CI logs" "black"
        (if env.truetypeOk then Font.arial 14 else Font.dflt))) := by
  unfold render_formula
  rw [h]
  exact ⟨rfl, by simp [World.write, World.print, List.lookup]⟩

/-- C5 witness: a concrete failing render of the spec's malformed example
expression. -/
theorem claim_C5_witness :
    env_render_fail.renderErr "\\badcmd\x7bx" = some "ParseSyntaxError" ∧
    (((render_formula env_render_fail w0 "\\badcmd\x7bx" "formula_obj.png" 18 200).2).out =
      w0.out ++ ["[WARN] render_formula failed for \x27" ++ "\\badcmd\x7bx" ++ "\x27: " ++
        "ParseSyntaxError"] ∧
    ((render_formula env_render_fail w0 "\\badcmd\x7bx" "formula_obj.png" 18 200).2).fs.lookup
        (joinPath IMG_DIR "formula_obj.png") =
      some (FileData.image (ImageContent.placeholder 900 140 "white"
        "Formula render failed; see CI logs" "black"
        (if env_render_fail.truetypeOk then Font.arial 14 else Font.dflt)))) :=
  ⟨rfl, claim_C5_failure_logs_and_placeholder env_render_fail w0 "\\badcmd\x7bx"
    "formula_obj.png" 18 200 "ParseSyntaxError" rfl⟩

/-- C10: the fallback branch is guarded against font-loading failure: when the
truetype load raises, the default font is used and the placeholder image is
still written, so producing the placeholder never fails for lack of a font
file. -/
theorem claim_C10_fallback_font_guard (env : Env) (w : World)
    (latex fname : String) (fontsize dpi : Nat) (e : String)
    (h : env.renderErr latex = some e) (hfont : env.truetypeOk = false) :
    ((render_formula env w latex fname fontsize dpi).2).fs.lookup (joinPath IMG_DIR fname) =
      some (FileData.image (ImageContent.placeholder 900 140 "white"
        "Formula render failed; see CI logs" "black" Font.dflt)) := by
  unfold render_formula
  rw [h, hfont]
  simp [World.write, World.print, List.lookup]

/-- C10 witness: a concrete failing render with the font missing. -/
theorem claim_C10_witness :
    env_render_fail_nofont.renderErr "x^2" = some "IOError" ∧
    env_render_fail_nofont.truetypeOk = false ∧
    ((render_formula env_render_fail_nofont w0 "x^2" "formula_time.png" 18 200).2).fs.lookup
        (joinPath IMG_DIR "formula_time.png") =
      some (FileData.image (ImageContent.placeholder 900 140 "white"
        "Formula render failed; see CI logs" "black" Font.dflt)) :=
  ⟨rfl, rfl, claim_C10_fallback_font_guard env_render_fail_nofont w0 "x^2"
    "formula_time.png" 18 200 "IOError" rfl rfl⟩

/-- C2 counterexample: the claim says a diagram generator raising is caught
and degrades to a placeholder, so the assembly still completes.  In the code
the nine generator calls sit outside every `try` block, so when the third
generator raises, `create_report` aborts with that exception and produces no
document at all. -/
theorem claim_C2_counterexample :
    create_report env_gen_raise w0 = Except.error "RuntimeError: draw failed" := rfl

/-- C2 (amended): failures of `doc.add_picture` inside the figure loop are
caught and degrade to a placeholder paragraph, previously added sections are
not rolled back, and the run still completes with a full document; but an
exception raised by a diagram generator itself is not caught and aborts the
assembly. -/
theorem claim_C2_insertion_failures_degrade (env : Env) (w : World) (h : goodRun env) :
    create_report env w = .ok (create_report_success env w) ∧
    reportDoc (create_report_success env w) = some (reportItems env) ∧
    ∀ cp ∈ figPairs, env.insertErr cp.2 = true →
      DocItem.paragraph ("[无法插入图片：" ++ cp.2 ++ "]") ∈ reportItems env ∧
      DocItem.styledParagraph cp.1 "Intense Quote" ∈ reportItems env := by
  refine ⟨create_report_ok env w h, reportDoc_success env w, ?_⟩
  intro cp hcp hins
  constructor
  · exact mem_figSection_reportItems env cp hcp _ (by simp [figSection, hins])
  · exact mem_figSection_reportItems env cp hcp _ (by simp [figSection])

/-- C2 witness: a run in which inserting the first figure image fails; the
document is still produced, with the placeholder and the caption both
present. -/
theorem claim_C2_witness :
    goodRun env_ins_fig1 ∧
    (create_report env_ins_fig1 w0 = .ok (create_report_success env_ins_fig1 w0) ∧
     reportDoc (create_report_success env_ins_fig1 w0) = some (reportItems env_ins_fig1) ∧
     ∀ cp ∈ figPairs, env_ins_fig1.insertErr cp.2 = true →
       DocItem.paragraph ("[无法插入图片：" ++ cp.2 ++ "]") ∈ reportItems env_ins_fig1 ∧
       DocItem.styledParagraph cp.1 "Intense Quote" ∈ reportItems env_ins_fig1) :=
  ⟨goodRun_env_ins_fig1,
   claim_C2_insertion_failures_degrade env_ins_fig1 w0 goodRun_env_ins_fig1⟩

/-- C3: when the run completes, the saved document is `reportItems env`, and
its headings are exactly: the title (level 0), the requirements heading
(level 1), the figures heading (level 1), and one level-3 heading per entry
of the fixed nine-element figure list, in the declared order; the title and
the requirements heading each occur exactly once. -/
theorem claim_C3_headings (env : Env) (w : World) (h : goodRun env) :
    create_report env w = .ok (create_report_success env w) ∧
    reportDoc (create_report_success env w) = some (reportItems env) ∧
    docHeadings (reportItems env) =
      [("城市级急救指挥平台：需求分析与系统设计", 0), ("需求分析（扩展）", 1), ("图示与说明", 1)] ++
      figPairs.map (fun cp => (((cp.1.splitOn " / ").headD cp.1), 3)) ∧
    (docHeadings (reportItems env)).count ("城市级急救指挥平台：需求分析与系统设计", 0) = 1 ∧
    (docHeadings (reportItems env)).count ("需求分析（扩展）", 1) = 1 := by
  refine ⟨create_report_ok env w h, reportDoc_success env w, docHeadings_reportItems env, ?_, ?_⟩
  all_goals rw [docHeadings_reportItems env, List.count_append]
  · have hz : (figPairs.map (fun cp => (((cp.1.splitOn " / ").headD cp.1), 3))).count
        ("城市级急救指挥平台：需求分析与系统设计", 0) = 0 := by
      refine List.count_eq_zero.mpr ?_
      intro hmem
      obtain ⟨cp, _, heq⟩ := List.mem_map.mp hmem
      have h3 := congrArg Prod.snd heq
      simp at h3
    rw [hz]
    decide
  · have hz : (figPairs.map (fun cp => (((cp.1.splitOn " / ").headD cp.1), 3))).count
        ("需求分析（扩展）", 1) = 0 := by
      refine List.count_eq_zero.mpr ?_
      intro hmem
      obtain ⟨cp, _, heq⟩ := List.mem_map.mp hmem
      have h3 := congrArg Prod.snd heq
      simp at h3
    rw [hz]
    decide

/-- C3 witness: the all-good run. -/
theorem claim_C3_witness :
    goodRun env_ok ∧
    (create_report env_ok w0 = .ok (create_report_success env_ok w0) ∧
     reportDoc (create_report_success env_ok w0) = some (reportItems env_ok) ∧
     docHeadings (reportItems env_ok) =
       [("城市级急救指挥平台：需求分析与系统设计", 0), ("需求分析（扩展）", 1), ("图示与说明", 1)] ++
       figPairs.map (fun cp => (((cp.1.splitOn " / ").headD cp.1), 3)) ∧
     (docHeadings (reportItems env_ok)).count ("城市级急救指挥平台：需求分析与系统设计", 0) = 1 ∧
     (docHeadings (reportItems env_ok)).count ("需求分析（扩展）", 1) = 1) :=
  ⟨goodRun_env_ok, claim_C3_headings env_ok w0 goodRun_env_ok⟩

/-- The document layout as the spec's contract words it: a title block, the
text section (requirements heading plus the fixed ordered paragraphs), a page
break, the figures heading followed by the figure sections (each an image
with its caption beneath, or a placeholder paragraph on insertion failure,
per `figSection`), and finally the two formula pictures with their
captions. -/
def spec_layout (env : Env) : List DocItem :=
  [DocItem.heading "城市级急救指挥平台：需求分析与系统设计" 0,
   DocItem.paragraph ("作者：系统设计组    日期：" ++ env.today)] ++
  ([DocItem.heading "需求分析（扩展）" 1] ++
   (generate_long_content.splitOn "\n\n").map DocItem.paragraph) ++
  [DocItem.pageBreak] ++
  ([DocItem.heading "图示与说明" 1] ++ (figPairs.map (figSection env)).flatten) ++
  formulaItems

theorem append_regroup2 {α : Type} (x y z p q : α) (lm f t : List α) :
    [x, y] ++ ([z] ++ lm) ++ [p] ++ ([q] ++ f) ++ t =
      [x, y, z] ++ lm ++ [p, q] ++ f ++ t := by
  simp

theorem spec_layout_eq (env : Env) : spec_layout env = reportItems env := by
  unfold spec_layout reportItems
  exact append_regroup2 _ _ _ _ _
    ((generate_long_content.splitOn "\n\n").map DocItem.paragraph)
    ((figPairs.map (figSection env)).flatten) formulaItems

/-- C4: when the run completes, the saved document is exactly the layout the
spec's contract describes — title block, text section, page break, the nine
figure sections (image-or-placeholder with the caption beneath), then the two
formula pictures with their captions. -/
theorem claim_C4_document_layout (env : Env) (w : World) (h : goodRun env) :
    create_report env w = .ok (create_report_success env w) ∧
    reportDoc (create_report_success env w) = some (spec_layout env) := by
  refine ⟨create_report_ok env w h, ?_⟩
  rw [spec_layout_eq]
  exact reportDoc_success env w

/-- C4 witness: the all-good run. -/
theorem claim_C4_witness :
    goodRun env_ok ∧
    (create_report env_ok w0 = .ok (create_report_success env_ok w0) ∧
     reportDoc (create_report_success env_ok w0) = some (spec_layout env_ok)) :=
  ⟨goodRun_env_ok, claim_C4_document_layout env_ok w0 goodRun_env_ok⟩

theorem figSection_length (env : Env) (cp : String × String) :
    (figSection env cp).length = 3 := by
  unfold figSection
  cases env.insertErr cp.2 <;> simp

theorem figSections_flatten_length (env : Env) (ps : List (String × String)) :
    ((ps.map (figSection env)).flatten).length = 3 * ps.length := by
  induction ps with
  | nil => rfl
  | cons p ps ih =>
      simp only [List.map_cons, List.flatten_cons, List.length_append,
        figSection_length, ih, List.length_cons]
      omega

/-- The number of items in a finished document does not depend on the run
at all: every figure section has three items in both branches. -/
theorem reportItems_length (env : Env) :
    (reportItems env).length = 36 + (generate_long_content.splitOn "\n\n").length := by
  unfold reportItems
  simp only [List.length_append, List.length_map, figSections_flatten_length,
    List.length_cons, List.length_nil]
  rw [show figPairs.length = 9 from rfl, show formulaItems.length = 4 from rfl]
  omega

/-- C6: any two completing runs — they may differ in date, raster data,
render outcomes, font availability and even insertion failures — produce
documents with the same headings in the same order and the same total item
count; and when their insertion-failure oracles also agree, the documents
have the same full structural skeleton (item kinds in order).  Pixel data and
the date paragraph text are the only things the skeleton ignores. -/
theorem claim_C6_structure_deterministic (env1 env2 : Env) (w1 w2 : World)
    (h1 : goodRun env1) (h2 : goodRun env2) :
    create_report env1 w1 = .ok (create_report_success env1 w1) ∧
    create_report env2 w2 = .ok (create_report_success env2 w2) ∧
    reportDoc (create_report_success env1 w1) = some (reportItems env1) ∧
    reportDoc (create_report_success env2 w2) = some (reportItems env2) ∧
    docHeadings (reportItems env1) = docHeadings (reportItems env2) ∧
    (reportItems env1).length = (reportItems env2).length ∧
    (env1.insertErr = env2.insertErr →
      docStructure (reportItems env1) = docStructure (reportItems env2)) := by
  refine ⟨create_report_ok env1 w1 h1, create_report_ok env2 w2 h2,
    reportDoc_success env1 w1, reportDoc_success env2 w2, ?_, ?_, ?_⟩
  · rw [docHeadings_reportItems, docHeadings_reportItems]
  · rw [reportItems_length, reportItems_length]
  · intro hins
    rw [docStructure_reportItems, docStructure_reportItems, hins]

/-- C6 witness: two all-good runs differing in date, raster data and render
outcome. -/
theorem claim_C6_witness :
    goodRun env_ok ∧ goodRun env_ok2 ∧
    (create_report env_ok w0 = .ok (create_report_success env_ok w0) ∧
     create_report env_ok2 w0 = .ok (create_report_success env_ok2 w0) ∧
     reportDoc (create_report_success env_ok w0) = some (reportItems env_ok) ∧
     reportDoc (create_report_success env_ok2 w0) = some (reportItems env_ok2) ∧
     docHeadings (reportItems env_ok) = docHeadings (reportItems env_ok2) ∧
     (reportItems env_ok).length = (reportItems env_ok2).length ∧
     (env_ok.insertErr = env_ok2.insertErr →
       docStructure (reportItems env_ok) = docStructure (reportItems env_ok2))) :=
  ⟨goodRun_env_ok, goodRun_env_ok2,
   claim_C6_structure_deterministic env_ok env_ok2 w0 w0 goodRun_env_ok goodRun_env_ok2⟩

/-- The eleven image filenames a run writes into `IMG_DIR`, in a fixed order
independent of the run. -/
def imageFileNames : List String :=
  ["fig1_system_architecture.png", "fig2_call_flow.png", "fig3_task_allocation.png",
   "fig4_gis_heatmap.png", "fig5_routing_sequence.png", "fig6_gantt.png",
   "fig7_hotspot.png", "fig8_deployment.png", "fig9_use_case.png",
   "formula_obj.png", "formula_time.png"]

/-- C7: a completing run writes the document to the fixed path `OUT_DOCX`,
writes one image into `IMG_DIR` under each of the fixed per-section
filenames, and ends its console output with the completion message naming
the document path. -/
theorem claim_C7_output_artifacts (env : Env) (w : World) (h : goodRun env) :
    create_report env w = .ok (create_report_success env w) ∧
    (∃ d, (create_report_success env w).fs.lookup OUT_DOCX = some (FileData.docx d)) ∧
    (∀ f ∈ imageFileNames,
      ∃ c, (create_report_success env w).fs.lookup (joinPath IMG_DIR f) =
        some (FileData.image c)) ∧
    (∃ warns, (create_report_success env w).out =
      w.out ++ warns ++ ["已生成 Word 报告： " ++ OUT_DOCX, "图像文件位于： " ++ IMG_DIR]) := by
  refine ⟨create_report_ok env w h, ⟨reportItems env, ?_⟩, ?_,
    ⟨renderWarns env latex1 ++ renderWarns env latex2, success_out env w⟩⟩
  · rw [success_fs]
    rfl
  · intro f hf
    rw [success_fs]
    fin_cases hf <;> exact ⟨_, rfl⟩

/-- C7 witness: the all-good run. -/
theorem claim_C7_witness :
    goodRun env_ok ∧
    (create_report env_ok w0 = .ok (create_report_success env_ok w0) ∧
     (∃ d, (create_report_success env_ok w0).fs.lookup OUT_DOCX = some (FileData.docx d)) ∧
     (∀ f ∈ imageFileNames,
       ∃ c, (create_report_success env_ok w0).fs.lookup (joinPath IMG_DIR f) =
         some (FileData.image c)) ∧
     (∃ warns, (create_report_success env_ok w0).out =
       w0.out ++ warns ++ ["已生成 Word 报告： " ++ OUT_DOCX, "图像文件位于： " ++ IMG_DIR])) :=
  ⟨goodRun_env_ok, claim_C7_output_artifacts env_ok w0 goodRun_env_ok⟩

/-- C8: in a figure-loop iteration whose image insertion fails, the section
contributed is exactly heading, then placeholder paragraph, then caption
paragraph: the heading (added before the insertion attempt) and the caption
(added after it) are there unconditionally, and the placeholder is added in
addition to the caption, not instead of it. -/
theorem claim_C8_placeholder_in_addition (env : Env) (doc : List DocItem)
    (cp : String × String) (h : env.insertErr cp.2 = true) :
    addFigure env doc cp =
      doc ++ [DocItem.heading ((cp.1.splitOn " / ").headD cp.1) 3,
              DocItem.paragraph ("[无法插入图片：" ++ cp.2 ++ "]"),
              DocItem.styledParagraph cp.1 "Intense Quote"] ∧
    DocItem.paragraph ("[无法插入图片：" ++ cp.2 ++ "]") ∈ addFigure env doc cp ∧
    DocItem.styledParagraph cp.1 "Intense Quote" ∈ addFigure env doc cp := by
  have he : addFigure env doc cp =
      doc ++ [DocItem.heading ((cp.1.splitOn " / ").headD cp.1) 3,
              DocItem.paragraph ("[无法插入图片：" ++ cp.2 ++ "]"),
              DocItem.styledParagraph cp.1 "Intense Quote"] := by
    unfold addFigure
    rw [h]
    simp
  refine ⟨he, ?_, ?_⟩ <;> rw [he] <;> simp

/-- C8 witness: the first figure entry in a run where every insertion
fails. -/
theorem claim_C8_witness :
    env_ins_all.insertErr (joinPath IMG_DIR "fig1_system_architecture.png") = true ∧
    (addFigure env_ins_all []
        ("图1 系统总体架构图 / System Architecture Diagram",
         joinPath IMG_DIR "fig1_system_architecture.png") =
      [] ++ [DocItem.heading
               ((("图1 系统总体架构图 / System Architecture Diagram").splitOn " / ").headD
                 "图1 系统总体架构图 / System Architecture Diagram") 3,
             DocItem.paragraph
               ("[无法插入图片：" ++ joinPath IMG_DIR "fig1_system_architecture.png" ++ "]"),
             DocItem.styledParagraph "图1 系统总体架构图 / System Architecture Diagram"
               "Intense Quote"] ∧
     DocItem.paragraph
         ("[无法插入图片：" ++ joinPath IMG_DIR "fig1_system_architecture.png" ++ "]") ∈
       addFigure env_ins_all []
         ("图1 系统总体架构图 / System Architecture Diagram",
          joinPath IMG_DIR "fig1_system_architecture.png") ∧
     DocItem.styledParagraph "图1 系统总体架构图 / System Architecture Diagram"
         "Intense Quote" ∈
       addFigure env_ins_all []
         ("图1 系统总体架构图 / System Architecture Diagram",
          joinPath IMG_DIR "fig1_system_architecture.png")) :=
  ⟨rfl, claim_C8_placeholder_in_addition env_ins_all []
    ("图1 系统总体架构图 / System Architecture Diagram",
     joinPath IMG_DIR "fig1_system_architecture.png") rfl⟩

end EDReport
